import Mathlib

/-!
Shallow embedding of the `htz-stateful-btn` repository: the `wrapInner`
content-wrapper (`src/lib/wrap-inner.js`) and the `statefulBtn` stateful
toggle module, together with theorems checking the specification's claims.

DOM elements are modelled as records of attributes (association list),
class list and child list; child nodes are abstract identities (`Nat`).
-/

namespace StatefulBtn

/-- Modelling `Element.setAttribute`: replaces the value of an existing
attribute in place, or appends the attribute at the end. -/
def setAttr : List (String × String) → String → String → List (String × String)
  | [], k, v => [(k, v)]
  | (k', v') :: rest, k, v =>
      if k' = k then (k, v) :: rest else (k', v') :: setAttr rest k v

/-- Modelling `Element.removeAttribute` (a no-op when the attribute is absent). -/
def removeAttr (l : List (String × String)) (k : String) : List (String × String) :=
  l.filter (fun p => p.1 ≠ k)

/-- Modelling `Element.getAttribute`; `none` is the JS `null` returned for an
absent attribute. -/
def getAttr (l : List (String × String)) (k : String) : Option String :=
  (l.find? (fun p => p.1 = k)).map Prod.snd

/-- Modelling `classList.add(...tokens)`: each token is appended unless already
present. -/
def classAdd (cs : List String) (toks : List String) : List String :=
  toks.foldl (fun acc t => if t ∈ acc then acc else acc ++ [t]) cs

/-- Modelling `classList.remove(...tokens)`: each token is removed from the
class list (a no-op for tokens not present). -/
def classRemove (cs : List String) (toks : List String) : List String :=
  toks.foldl (fun acc t => acc.filter (fun c => c ≠ t)) cs

/-- The slice of a DOM element the widget manipulates: attributes, class list
and child list.  Child nodes are abstract identities. -/
structure Elem where
  attrs : List (String × String) := []
  classes : List String := []
  children : List Nat := []
  deriving DecidableEq

/-- The loop `while (parent.firstChild !== wrapperElem)
wrapperElem.appendChild(parent.firstChild)` of `wrapInner`: pops the parent's
first child into the wrapper until the wrapper itself is the first child.
Returns the remaining parent children and the wrapper's children.  (The `[]`
case is unreachable once the wrapper has been appended to the parent.) -/
def moveToWrapper (w : Nat) : List Nat → List Nat → List Nat × List Nat
  | [], acc => ([], acc)
  | c :: rest, acc => if c = w then (c :: rest, acc) else moveToWrapper w rest (acc ++ [c])

/-- The loop `for (const attr in attrs) wrapperElem.setAttribute(attr,
attrs[attr])` of `wrapInner`: applies every configured attribute to the
wrapper element. -/
def applyAttrs (e : Elem) (attrs : List (String × String)) : Elem :=
  attrs.foldl (fun acc p => { acc with attrs := setAttr acc.attrs p.1 p.2 }) e

/-- `wrapInner(parent, wrapper, attrs)` from `src/lib/wrap-inner.js`.  The
wrapper element is given by its node identity `w` together with its element
state `wrapperElem` (a fresh empty element when the JS call passes a tag-name
string).  The attributes are applied to the wrapper, the wrapper is appended
as the parent's last child (`appendChild` moves it if it was already a child),
the pre-existing children are moved into the wrapper, and the pair
`[parent, wrapperElem]` is returned. -/
def wrapInner (parent : Elem) (w : Nat) (wrapperElem : Elem)
    (attrs : List (String × String)) : Elem × Elem :=
  let we := applyAttrs wrapperElem attrs
  let pc := parent.children.erase w ++ [w]
  let moved := moveToWrapper w pc we.children
  ({ parent with children := moved.1 }, { we with children := moved.2 })

theorem moveToWrapper_append (w : Nat) (cs acc : List Nat) (h : w ∉ cs) :
    moveToWrapper w (cs ++ [w]) acc = ([w], acc ++ cs) := by
  induction cs generalizing acc with
  | nil => simp [moveToWrapper]
  | cons c rest ih =>
    have hcw : c ≠ w := fun hc => h (by simp [hc])
    have hrest : w ∉ rest := fun hr => h (List.mem_cons_of_mem _ hr)
    have step : moveToWrapper w ((c :: rest) ++ [w]) acc
        = moveToWrapper w (rest ++ [w]) (acc ++ [c]) := by
      simp [moveToWrapper, hcw]
    rw [step, ih (acc ++ [c]) hrest]
    simp

/-- Closed form of `wrapInner` when the wrapper is not already one of the
parent's children (in particular whenever it is freshly created). -/
theorem wrapInner_eq (parent : Elem) (w : Nat) (wrapperElem : Elem)
    (attrs : List (String × String)) (hw : w ∉ parent.children) :
    wrapInner parent w wrapperElem attrs =
      ({ parent with children := [w] },
       { applyAttrs wrapperElem attrs with
          children := (applyAttrs wrapperElem attrs).children ++ parent.children }) := by
  simp only [wrapInner, List.erase_of_not_mem hw,
    moveToWrapper_append w parent.children _ hw]

/-- C1: `wrapInner(container, wrapperSpec, attrs)` first applies each attribute
in `attrs` to the wrapper element, then moves all of the container's original
children inside the wrapper in their original order, leaves the wrapper as the
container's sole child, and returns the pair `(container, wrapper)`. -/
theorem wrapInner_spec (parent : Elem) (w : Nat) (wrapperElem : Elem)
    (attrs : List (String × String)) (hw : w ∉ parent.children) :
    (wrapInner parent w wrapperElem attrs).1.children = [w] ∧
    (wrapInner parent w wrapperElem attrs).2.children =
      (applyAttrs wrapperElem attrs).children ++ parent.children ∧
    (wrapInner parent w wrapperElem attrs).2.attrs =
      (applyAttrs wrapperElem attrs).attrs ∧
    wrapInner parent w wrapperElem attrs =
      ({ parent with children := [w] },
       { applyAttrs wrapperElem attrs with
          children := (applyAttrs wrapperElem attrs).children ++ parent.children }) := by
  rw [wrapInner_eq parent w wrapperElem attrs hw]
  exact ⟨rfl, rfl, rfl, rfl⟩

/-- Witness for C1 at a concrete container with two children. -/
theorem wrapInner_spec_wit :
    (wrapInner { children := [1, 2] } 0 {} [("role", "none")]).1.children = [0] ∧
    (wrapInner { children := [1, 2] } 0 {} [("role", "none")]).2.children =
      (applyAttrs {} [("role", "none")]).children ++ [1, 2] ∧
    (wrapInner { children := [1, 2] } 0 {} [("role", "none")]).2.attrs =
      (applyAttrs {} [("role", "none")]).attrs ∧
    wrapInner { children := [1, 2] } 0 {} [("role", "none")] =
      ({ children := [0] },
       { applyAttrs ({} : Elem) [("role", "none")] with
          children := (applyAttrs ({} : Elem) [("role", "none")]).children ++ [1, 2] }) :=
  wrapInner_spec { children := [1, 2] } 0 {} [("role", "none")] (by decide)

/-- JS truthiness of an optional string: `undefined`/`null` and the empty
string are falsy. -/
def truthy : Option String → Bool
  | none => false
  | some s => s ≠ ""

/-- JS `a || b` on optional strings (used for the explicit-argument /
data-attribute fallback in `init`). -/
def jsOr (a b : Option String) : Option String :=
  if truthy a then a else b

/-- Helper for `splitSpace`: walks the character list accumulating the current
fragment, cutting at every space. -/
def splitChars : List Char → List Char → List String
  | [], acc => [⟨acc⟩]
  | c :: rest, acc =>
      if c = ' ' then (⟨acc⟩ : String) :: splitChars rest []
      else splitChars rest (acc ++ [c])

/-- JS `str.split(' ')`: splits at every single space character (adjacent
spaces produce empty fragments, and the empty string yields `[""]`). -/
def splitSpace (s : String) : List String :=
  splitChars s.data []

/-- An event dispatched on the button element: its name and the `isInState`
flag carried in its payload. -/
structure Event where
  name : String
  isInState : Bool
  deriving DecidableEq

/-- The closure state of one `statefulBtn` instance: the `btn` element, the
`wrapper` element (`none` models the JS `undefined`), the state and
initialization flags and the two optional props.  `wrapperId` is the node
identity of the current wrapper inside `btn.children`; `nextId` models
allocation of fresh nodes by `document.createElement`. -/
structure BtnState where
  btn : Elem
  wrapperId : Nat := 0
  wrapper : Option Elem := none
  isInState : Bool := false
  isInit : Bool := false
  a11yText : Option String := none
  inStateClassName : Option String := none
  nextId : Nat
  deriving DecidableEq

/-- Result of one instance operation: the post-state, the events dispatched in
order, and whether a platform exception escaped (`threw = true` leaves the
state as it was at the point of the throw). -/
structure OpResult where
  state : BtnState
  events : List Event := []
  threw : Bool := false
  deriving DecidableEq

/-- `btn.insertBefore(c, wrapper)` on a child list: inserts `c` immediately
before the first occurrence of `w`.  (The `[]` fallback — the reference node
not found — is unreachable in states produced by the module.) -/
def insertBefore (l : List Nat) (w c : Nat) : List Nat :=
  match l with
  | [] => []
  | x :: rest => if x = w then c :: x :: rest else x :: insertBefore rest w c

/-- The loop `while (wrapper.firstChild) btn.insertBefore(wrapper.firstChild,
wrapper)` of `destroy`: moves the wrapper's children, in order, into the
button immediately before the wrapper. -/
def unwrapLoop : List Nat → Nat → List Nat → List Nat
  | [], _, bc => bc
  | c :: rest, w, bc => unwrapLoop rest w (insertBefore bc w c)

/-- `destroy()`: when initialized, removes `aria-live` and `aria-label` from
the button, removes the `inStateClassName` tokens from the button's class list
(`inStateClassName.split(' ')` throws a TypeError when the value was never
set, i.e. is JS `undefined`/`null`), moves the wrapper's children back into
the button immediately before the wrapper, removes the wrapper, and clears
`wrapper`, `isInit` and `isInState`.  A no-op when not initialized. -/
def destroyOp (s : BtnState) : OpResult :=
  if s.isInit then
    let b1 : Elem :=
      { s.btn with attrs := removeAttr (removeAttr s.btn.attrs "aria-live") "aria-label" }
    match s.inStateClassName with
    | none => { state := { s with btn := b1 }, threw := true }
    | some cls =>
      let b2 : Elem := { b1 with classes := classRemove b1.classes (splitSpace cls) }
      match s.wrapper with
      | none => { state := { s with btn := b2 }, threw := true }
      | some we =>
        let bc := unwrapLoop we.children s.wrapperId b2.children
        let b3 : Elem := { b2 with children := bc.erase s.wrapperId }
        { state := { s with btn := b3, wrapper := none, isInit := false, isInState := false } }
  else { state := s }

/-- `init()`: destroys first when already initialized (a throw there
propagates and aborts the call), wraps the button's content in a fresh `span`
via `wrapInner`, resolves `a11yText` as `inStateText ||
btn.getAttribute('data-in-state-text')` and `inStateClassName` likewise from
`data-in-state-class`, sets `aria-live="polite"` on the button, and marks the
instance initialized. -/
def initOp (inStateText inStateClass : Option String) (s : BtnState) : OpResult :=
  let pre := if s.isInit then destroyOp s else { state := s }
  if pre.threw then pre
  else
    let s1 := pre.state
    let wid := s1.nextId
    let wrapped := wrapInner s1.btn wid {} []
    let btn1 := wrapped.1
    let a11y := jsOr inStateText (getAttr btn1.attrs "data-in-state-text")
    let cls := jsOr inStateClass (getAttr btn1.attrs "data-in-state-class")
    let btn2 : Elem := { btn1 with attrs := setAttr btn1.attrs "aria-live" "polite" }
    let s2 : BtnState :=
      { s1 with
        btn := btn2, wrapperId := wid, wrapper := some wrapped.2,
        a11yText := a11y, inStateClassName := cls, isInit := true,
        nextId := s1.nextId + 1 }
    { state := s2 }

/-- `enableState()`: when initialized, dispatches the cancellable
`stateful-btn:enable-before` event (`allow` models whether the observers let
it proceed); if allowed, sets `aria-hidden="true"` on the wrapper, sets
`aria-label` when `a11yText` is truthy, adds the `inStateClassName` tokens
when truthy, sets the active flag and dispatches
`stateful-btn:enable-after`. -/
def enableStateOp (allow : String → Bool) (s : BtnState) : OpResult :=
  if s.isInit then
    let ev1 : Event := ⟨"stateful-btn:enable-before", s.isInState⟩
    if allow "stateful-btn:enable-before" then
      match s.wrapper with
      | none => { state := s, events := [ev1], threw := true }
      | some we =>
        let we1 : Elem := { we with attrs := setAttr we.attrs "aria-hidden" "true" }
        let b1 : Elem :=
          if truthy s.a11yText then
            { s.btn with attrs := setAttr s.btn.attrs "aria-label" (s.a11yText.getD "") }
          else s.btn
        let b2 : Elem :=
          if truthy s.inStateClassName then
            { b1 with classes := classAdd b1.classes (splitSpace (s.inStateClassName.getD "")) }
          else b1
        let s2 : BtnState := { s with btn := b2, wrapper := some we1, isInState := true }
        { state := s2, events := [ev1, ⟨"stateful-btn:enable-after", s2.isInState⟩] }
    else { state := s, events := [ev1] }
  else { state := s }

/-- `disableState()`: when initialized, dispatches the cancellable
`htz-stateful-btn:disable-before` event (note the name differs from the
enable pair's prefix); if allowed, removes `aria-label` when `a11yText` is
truthy, removes the `inStateClassName` tokens when truthy, removes
`aria-hidden` from the wrapper, clears the active flag and dispatches
`htz-stateful-btn:disable-after`. -/
def disableStateOp (allow : String → Bool) (s : BtnState) : OpResult :=
  if s.isInit then
    let ev1 : Event := ⟨"htz-stateful-btn:disable-before", s.isInState⟩
    if allow "htz-stateful-btn:disable-before" then
      let b1 : Elem :=
        if truthy s.a11yText then
          { s.btn with attrs := removeAttr s.btn.attrs "aria-label" }
        else s.btn
      let b2 : Elem :=
        if truthy s.inStateClassName then
          { b1 with classes := classRemove b1.classes (splitSpace (s.inStateClassName.getD "")) }
        else b1
      match s.wrapper with
      | none => { state := { s with btn := b2 }, events := [ev1], threw := true }
      | some we =>
        let we1 : Elem := { we with attrs := removeAttr we.attrs "aria-hidden" }
        let s2 : BtnState := { s with btn := b2, wrapper := some we1, isInState := false }
        { state := s2, events := [ev1, ⟨"htz-stateful-btn:disable-after", s2.isInState⟩] }
    else { state := s, events := [ev1] }
  else { state := s }

/-- `toggle()`: when initialized, dispatches to `disableState` if currently
active, else to `enableState`. -/
def toggleOp (allow : String → Bool) (s : BtnState) : OpResult :=
  if s.isInit then
    if s.isInState then disableStateOp allow s else enableStateOp allow s
  else { state := s }

/-- The `a11yText` setter of the instance API. -/
def setA11yText (t : Option String) (s : BtnState) : BtnState :=
  { s with a11yText := t }

/-- The `stateClass` setter of the instance API. -/
def setStateClass (c : Option String) (s : BtnState) : BtnState :=
  { s with inStateClassName := c }

theorem removeAttr_cons_pos (p : String × String) (rest : List (String × String))
    (k : String) (h : p.1 = k) : removeAttr (p :: rest) k = removeAttr rest k := by
  simp [removeAttr, h]

theorem removeAttr_cons_neg (p : String × String) (rest : List (String × String))
    (k : String) (h : p.1 ≠ k) : removeAttr (p :: rest) k = p :: removeAttr rest k := by
  simp [removeAttr, h]

theorem getAttr_cons_pos (p : String × String) (rest : List (String × String))
    (k : String) (h : p.1 = k) : getAttr (p :: rest) k = some p.2 := by
  simp [getAttr, List.find?_cons, h]

theorem getAttr_cons_neg (p : String × String) (rest : List (String × String))
    (k : String) (h : p.1 ≠ k) : getAttr (p :: rest) k = getAttr rest k := by
  simp [getAttr, List.find?_cons, h]

theorem getAttr_removeAttr_self (l : List (String × String)) (k : String) :
    getAttr (removeAttr l k) k = none := by
  induction l with
  | nil => rfl
  | cons p rest ih =>
    by_cases hp : p.1 = k
    · rw [removeAttr_cons_pos p rest k hp, ih]
    · rw [removeAttr_cons_neg p rest k hp, getAttr_cons_neg p _ k hp, ih]

theorem getAttr_removeAttr_ne (l : List (String × String)) (k k' : String) (h : k' ≠ k) :
    getAttr (removeAttr l k) k' = getAttr l k' := by
  induction l with
  | nil => rfl
  | cons p rest ih =>
    by_cases hp : p.1 = k
    · have hq : p.1 ≠ k' := fun hk => h (hk.symm.trans hp)
      rw [removeAttr_cons_pos p rest k hp, getAttr_cons_neg p rest k' hq, ih]
    · by_cases hq : p.1 = k'
      · rw [removeAttr_cons_neg p rest k hp, getAttr_cons_pos p _ k' hq,
          getAttr_cons_pos p rest k' hq]
      · rw [removeAttr_cons_neg p rest k hp, getAttr_cons_neg p _ k' hq,
          getAttr_cons_neg p rest k' hq, ih]

theorem removeAttr_removeAttr (l : List (String × String)) (k : String) :
    removeAttr (removeAttr l k) k = removeAttr l k := by
  simp only [removeAttr, List.filter_filter]
  exact List.filter_congr fun p _ => by by_cases hp : p.1 = k <;> simp [hp]

theorem classRemove_eq_filter (cs toks : List String) :
    classRemove cs toks = cs.filter (fun c => decide (c ∉ toks)) := by
  induction toks generalizing cs with
  | nil => simp [classRemove]
  | cons t ts ih =>
    show classRemove (cs.filter fun c => c ≠ t) ts = _
    rw [ih, List.filter_filter]
    exact List.filter_congr fun c _ => by
      by_cases h1 : c = t <;> by_cases h2 : c ∈ ts <;> simp [h1, h2]

theorem mem_classRemove (x : String) (cs toks : List String) :
    x ∈ classRemove cs toks ↔ x ∈ cs ∧ x ∉ toks := by
  rw [classRemove_eq_filter]
  simp

theorem classRemove_classRemove (cs toks : List String) :
    classRemove (classRemove cs toks) toks = classRemove cs toks := by
  rw [classRemove_eq_filter, classRemove_eq_filter, List.filter_filter]
  exact List.filter_congr fun c _ => by by_cases h : c ∈ toks <;> simp [h]

/-- C4: for an initialized instance, a vetoed `enable-before` makes
`enableState` a no-op beyond firing the before event: the state (active flag,
attributes, classes, wrapper) is unchanged, no after event fires, and nothing
throws; symmetrically for a vetoed `disable-before` in `disableState`. -/
theorem veto_noop (allow : String → Bool) (s : BtnState)
    (hInit : s.isInit = true)
    (he : allow "stateful-btn:enable-before" = false)
    (hd : allow "htz-stateful-btn:disable-before" = false) :
    enableStateOp allow s =
      { state := s, events := [⟨"stateful-btn:enable-before", s.isInState⟩] } ∧
    disableStateOp allow s =
      { state := s, events := [⟨"htz-stateful-btn:disable-before", s.isInState⟩] } := by
  constructor <;> simp [enableStateOp, disableStateOp, hInit, he, hd]

/-- A concrete freshly-initialized instance state used by witnesses. -/
def sInitPlain : BtnState :=
  { btn := {}, wrapper := some {}, isInit := true, nextId := 1 }

/-- Witness for C4 at a concrete initialized instance with an observer that
vetoes every before event. -/
theorem veto_noop_wit :
    enableStateOp (fun _ => false) sInitPlain =
      { state := sInitPlain, events := [⟨"stateful-btn:enable-before", sInitPlain.isInState⟩] } ∧
    disableStateOp (fun _ => false) sInitPlain =
      { state := sInitPlain, events := [⟨"htz-stateful-btn:disable-before", sInitPlain.isInState⟩] } :=
  veto_noop (fun _ => false) sInitPlain rfl rfl rfl

/-- C6: for an initialized instance, `destroy` throws exactly when
`inStateClassName` was never set (the unguarded `inStateClassName.split`),
and on the unset value the throw happens after the attribute removals, which
are themselves defensive no-ops, leaving the structural state untouched. -/
theorem destroy_unset_class (s : BtnState) (we : Elem)
    (hInit : s.isInit = true) (hw : s.wrapper = some we) :
    ((destroyOp s).threw = true ↔ s.inStateClassName = none) ∧
    (s.inStateClassName = none →
      (destroyOp s).state =
        { s with btn := { s.btn with
            attrs := removeAttr (removeAttr s.btn.attrs "aria-live") "aria-label" } }) := by
  cases hcls : s.inStateClassName <;> simp [destroyOp, hInit, hw, hcls]

/-- A concrete initialized instance whose state-class prop was never set. -/
def sUnsetClass : BtnState :=
  { btn := { attrs := [("aria-live", "polite")] }, wrapper := some {}, isInit := true, nextId := 1 }

/-- Witness for C6 at a concrete initialized instance whose state class was
never configured. -/
theorem destroy_unset_class_wit :
    ((destroyOp sUnsetClass).threw = true ↔ sUnsetClass.inStateClassName = none) ∧
    (sUnsetClass.inStateClassName = none →
      (destroyOp sUnsetClass).state =
        { sUnsetClass with btn := { sUnsetClass.btn with
            attrs := removeAttr (removeAttr sUnsetClass.btn.attrs "aria-live") "aria-label" } }) :=
  destroy_unset_class sUnsetClass {} rfl rfl

/-- A concrete uninitialized button with one child node and a declarative
`data-in-state-text` attribute. -/
def exBtn : BtnState :=
  { btn := { attrs := [("data-in-state-text", "declared")], children := [7] }, nextId := 0 }

/-- `exBtn` after `init` with explicit label and class arguments. -/
def exInit : BtnState := (initOp (some "Loading") (some "busy") exBtn).state

/-- `exInit` after an uncontested `enableState`. -/
def exEnable : OpResult := enableStateOp (fun _ => true) exInit

/-- `exEnable` after an uncontested `disableState`. -/
def exDisable1 : OpResult := disableStateOp (fun _ => true) exEnable.state

/-- A second consecutive uncontested `disableState`. -/
def exDisable2 : OpResult := disableStateOp (fun _ => true) exDisable1.state

/-- C7 counterexample: with the explicit label argument supplied as the empty
string and a declarative `data-in-state-text="declared"` present, `init`
resolves `a11yText` to the declarative value, not the explicit argument — the
claimed unconditional precedence of explicit arguments fails (JS `||` treats
the empty string as absent). -/
theorem resolve_empty_arg_counterex :
    (initOp (some "") none exBtn).state.a11yText = some "declared" ∧
    (some "declared" : Option String) ≠ some "" := by
  decide

/-- C7 amended: `init` resolves `a11yText` to the explicit argument when that
argument is truthy (a non-empty string), and otherwise to the target's
`data-in-state-text` attribute value (`none` when absent); likewise
`inStateClassName` from the explicit argument else `data-in-state-class`. -/
theorem resolve_precedence (t c : Option String) (s : BtnState) (hni : s.isInit = false) :
    (truthy t = true → (initOp t c s).state.a11yText = t) ∧
    (truthy t = false →
      (initOp t c s).state.a11yText = getAttr s.btn.attrs "data-in-state-text") ∧
    (truthy c = true → (initOp t c s).state.inStateClassName = c) ∧
    (truthy c = false →
      (initOp t c s).state.inStateClassName = getAttr s.btn.attrs "data-in-state-class") := by
  refine ⟨?_, ?_, ?_, ?_⟩ <;> intro h <;> simp [initOp, hni, jsOr, h, wrapInner]

/-- Witness for the amended C7 at a concrete truthy explicit label and an
absent explicit class. -/
theorem resolve_precedence_wit :
    (truthy (some "L") = true → (initOp (some "L") none exBtn).state.a11yText = some "L") ∧
    (truthy (some "L") = false →
      (initOp (some "L") none exBtn).state.a11yText = getAttr exBtn.btn.attrs "data-in-state-text") ∧
    (truthy (none : Option String) = true →
      (initOp (some "L") none exBtn).state.inStateClassName = none) ∧
    (truthy (none : Option String) = false →
      (initOp (some "L") none exBtn).state.inStateClassName =
        getAttr exBtn.btn.attrs "data-in-state-class") :=
  resolve_precedence (some "L") none exBtn rfl

/-- C8: evaluation of a concrete run showing the actual event surface: the
enable pair is dispatched as `stateful-btn:enable-before` /
`stateful-btn:enable-after` but the disable pair as
`htz-stateful-btn:disable-before` / `htz-stateful-btn:disable-after`, so the
four lifecycle events do not share one common event-name family, while each
payload carries the instance's active flag at the moment of dispatch. -/
theorem disable_event_names :
    exEnable.events.map Event.name =
      ["stateful-btn:enable-before", "stateful-btn:enable-after"] ∧
    exDisable1.events.map Event.name =
      ["htz-stateful-btn:disable-before", "htz-stateful-btn:disable-after"] ∧
    exEnable.events.map Event.isInState = [false, true] ∧
    exDisable1.events.map Event.isInState = [true, false] ∧
    "htz-stateful-btn:disable-before".data.takeWhile (fun ch => ch ≠ ':') ≠
      "stateful-btn:enable-before".data.takeWhile (fun ch => ch ≠ ':') := by
  decide

/-- C5 counterexample: a second consecutive `disableState` call leaves the
state unchanged but is not a no-op on the event surface: it fires
`htz-stateful-btn:disable-before` and `htz-stateful-btn:disable-after` again,
duplicating the events of the first call. -/
theorem second_disable_not_noop :
    exDisable2.state = exDisable1.state ∧
    exDisable2.events =
      [⟨"htz-stateful-btn:disable-before", false⟩, ⟨"htz-stateful-btn:disable-after", false⟩] ∧
    exDisable1.events.count ⟨"htz-stateful-btn:disable-after", false⟩ +
      exDisable2.events.count ⟨"htz-stateful-btn:disable-after", false⟩ = 2 := by
  decide

theorem insertBefore_eq (w c : Nat) (l1 l2 : List Nat) (h : w ∉ l1) :
    insertBefore (l1 ++ w :: l2) w c = l1 ++ c :: w :: l2 := by
  induction l1 with
  | nil => simp [insertBefore]
  | cons x rest ih =>
    have hx : x ≠ w := fun hc => h (by simp [hc])
    have hr : w ∉ rest := fun hm => h (List.mem_cons_of_mem _ hm)
    simp [insertBefore, hx, ih hr]

theorem unwrapLoop_eq (w : Nat) (wc : List Nat) (l1 l2 : List Nat)
    (h1 : w ∉ l1) (hwc : w ∉ wc) :
    unwrapLoop wc w (l1 ++ w :: l2) = l1 ++ wc ++ w :: l2 := by
  induction wc generalizing l1 with
  | nil => simp [unwrapLoop]
  | cons c rest ih =>
    have hcw : w ≠ c := fun hc => hwc (by simp [hc])
    have hrest : w ∉ rest := fun hm => hwc (List.mem_cons_of_mem _ hm)
    have h1c : w ∉ l1 ++ [c] := by
      simp only [List.mem_append, List.mem_singleton]
      rintro (hm | hm)
      · exact h1 hm
      · exact hcw hm
    have step : unwrapLoop (c :: rest) w (l1 ++ w :: l2)
        = unwrapLoop rest w ((l1 ++ [c]) ++ w :: l2) := by
      simp [unwrapLoop, insertBefore_eq w c l1 l2 h1]
    rw [step, ih (l1 ++ [c]) h1c hrest]
    simp

/-- Closed form of `initOp` from an uninitialized state whose wrapper node is
fresh: the button's children are wrapped, the props resolved, `aria-live`
set and the init flag raised. -/
theorem initOp_eq (t c : Option String) (s : BtnState)
    (hni : s.isInit = false) (hwid : s.nextId ∉ s.btn.children) :
    (initOp t c s).state =
      { s with
        btn := { s.btn with
          attrs := setAttr s.btn.attrs "aria-live" "polite", children := [s.nextId] },
        wrapperId := s.nextId,
        wrapper := some { children := s.btn.children },
        a11yText := jsOr t (getAttr s.btn.attrs "data-in-state-text"),
        inStateClassName := jsOr c (getAttr s.btn.attrs "data-in-state-class"),
        isInit := true,
        nextId := s.nextId + 1 } ∧
    (initOp t c s).threw = false := by
  constructor <;>
    simp [initOp, hni, wrapInner_eq s.btn s.nextId {} [] hwid, applyAttrs]

/-- C2: from an uninitialized state with a configured state class (see C6 for
the unconfigured defect), `init` followed by `destroy` does not throw,
restores the button's children to their pre-init order, leaves no live-region
(`aria-live`) attribute, and ends with the init flag false. -/
theorem init_then_destroy (t c : Option String) (s : BtnState)
    (hni : s.isInit = false)
    (hfresh : ∀ x ∈ s.btn.children, x < s.nextId)
    (hcls : jsOr c (getAttr s.btn.attrs "data-in-state-class") ≠ none) :
    (destroyOp (initOp t c s).state).threw = false ∧
    (destroyOp (initOp t c s).state).state.btn.children = s.btn.children ∧
    getAttr (destroyOp (initOp t c s).state).state.btn.attrs "aria-live" = none ∧
    (destroyOp (initOp t c s).state).state.isInit = false := by
  have hwid : s.nextId ∉ s.btn.children := fun hm => absurd (hfresh _ hm) (lt_irrefl _)
  obtain ⟨cls, hc⟩ := Option.ne_none_iff_exists'.mp hcls
  rw [(initOp_eq t c s hni hwid).1]
  have hunwrap : unwrapLoop s.btn.children s.nextId ([] ++ s.nextId :: []) =
      [] ++ s.btn.children ++ s.nextId :: [] :=
    unwrapLoop_eq s.nextId s.btn.children [] [] (by simp) hwid
  simp only [List.nil_append] at hunwrap
  have herase : (s.btn.children ++ [s.nextId]).erase s.nextId = s.btn.children := by
    rw [List.erase_append_right _ hwid, List.erase_cons_head, List.append_nil]
  simp only [destroyOp, hc, hunwrap, herase]
  refine ⟨by simp, by simp, ?_, by simp⟩
  have hgone : getAttr (removeAttr (removeAttr
      (setAttr s.btn.attrs "aria-live" "polite") "aria-live") "aria-label") "aria-live" = none := by
    rw [getAttr_removeAttr_ne _ "aria-label" "aria-live" (by decide),
      getAttr_removeAttr_self]
  simpa using hgone

/-- A concrete uninitialized button with two children, a declarative state
class and a fresh node counter. -/
def exBtn3 : BtnState :=
  { btn := { attrs := [("data-in-state-class", "busy")], children := [3, 4] }, nextId := 5 }

/-- Witness for C2 at `exBtn3`. -/
theorem init_then_destroy_wit :
    (destroyOp (initOp none none exBtn3).state).threw = false ∧
    (destroyOp (initOp none none exBtn3).state).state.btn.children = exBtn3.btn.children ∧
    getAttr (destroyOp (initOp none none exBtn3).state).state.btn.attrs "aria-live" = none ∧
    (destroyOp (initOp none none exBtn3).state).state.isInit = false :=
  init_then_destroy none none exBtn3 rfl (by decide) (by decide)

/-- The two state invariants of an instance: the wrapper element is defined
exactly when the instance is initialized, and the active flag implies the
initialized flag. -/
def Inv (s : BtnState) : Prop :=
  (s.wrapper.isSome = true ↔ s.isInit = true) ∧ (s.isInState = true → s.isInit = true)

/-- One public operation of the instance API (constructor arguments for
`init`, observer behaviour for the event-firing operations, values for the
accessor writes). -/
inductive Op where
  | opInit (t c : Option String)
  | opDestroy
  | opEnable (allow : String → Bool)
  | opDisable (allow : String → Bool)
  | opToggle (allow : String → Bool)
  | opSetText (t : Option String)
  | opSetClass (c : Option String)

/-- The state reached by one public operation (the state at the point of the
throw when the operation throws). -/
def applyOp : Op → BtnState → BtnState
  | .opInit t c, s => (initOp t c s).state
  | .opDestroy, s => (destroyOp s).state
  | .opEnable a, s => (enableStateOp a s).state
  | .opDisable a, s => (disableStateOp a s).state
  | .opToggle a, s => (toggleOp a s).state
  | .opSetText t, s => setA11yText t s
  | .opSetClass c, s => setStateClass c s

theorem destroyOp_inv (s : BtnState) (h : Inv s) : Inv (destroyOp s).state := by
  obtain ⟨h1, h2⟩ := h
  by_cases hi : s.isInit = true
  · have hws : s.wrapper.isSome = true := h1.mpr hi
    cases hcls : s.inStateClassName with
    | none =>
      simp only [destroyOp, hi, hcls, if_true]
      exact ⟨by simp [hws, hi], fun _ => by simp [hi]⟩
    | some cls =>
      cases hw : s.wrapper with
      | none => simp [hw] at hws
      | some we =>
        simp only [destroyOp, hi, hcls, hw, if_true]
        exact ⟨by simp, fun hf => by simp at hf⟩
  · simp only [destroyOp, hi, if_false]
    exact ⟨h1, h2⟩

theorem initOp_inv (t c : Option String) (s : BtnState) (h : Inv s) :
    Inv (initOp t c s).state := by
  by_cases hi : s.isInit = true
  · by_cases hth : (destroyOp s).threw = true
    · simp only [initOp, hi, if_true, hth]
      exact destroyOp_inv s h
    · simp only [initOp, hi, if_true, hth, if_false]
      exact ⟨by simp, fun _ => by simp⟩
  · simp only [initOp, hi, if_false]
    exact ⟨by simp, fun _ => by simp⟩

theorem enableStateOp_inv (a : String → Bool) (s : BtnState) (h : Inv s) :
    Inv (enableStateOp a s).state := by
  unfold enableStateOp
  by_cases hi : s.isInit = true
  · have hws : s.wrapper.isSome = true := h.1.mpr hi
    by_cases hall : a "stateful-btn:enable-before" = true
    · cases hw : s.wrapper with
      | none => simp [hw] at hws
      | some we =>
        simp only [hi, hall, hw, if_true]
        exact ⟨by simp [hi], fun _ => by simp [hi]⟩
    · simp only [hi, hall, if_true, if_false]
      exact h
  · simp only [hi, if_false]
    exact h

theorem disableStateOp_inv (a : String → Bool) (s : BtnState) (h : Inv s) :
    Inv (disableStateOp a s).state := by
  unfold disableStateOp
  by_cases hi : s.isInit = true
  · have hws : s.wrapper.isSome = true := h.1.mpr hi
    by_cases hall : a "htz-stateful-btn:disable-before" = true
    · cases hw : s.wrapper with
      | none => simp [hw] at hws
      | some we =>
        simp only [hi, hall, hw, if_true]
        exact ⟨by simp [hi], fun _ => by simp [hi]⟩
    · simp only [hi, hall, if_true, if_false]
      exact h
  · simp only [hi, if_false]
    exact h

/-- C3: every public operation of an instance — `init`, `destroy`,
`enableState`, `disableState`, `toggle` and the accessor writes — preserves
the two state invariants: the wrapper is defined iff the instance is
initialized, and the active flag implies the initialized flag. -/
theorem ops_preserve_inv (op : Op) (s : BtnState) (h : Inv s) : Inv (applyOp op s) := by
  cases op with
  | opInit t c => exact initOp_inv t c s h
  | opDestroy => exact destroyOp_inv s h
  | opEnable a => exact enableStateOp_inv a s h
  | opDisable a => exact disableStateOp_inv a s h
  | opToggle a =>
    show Inv (toggleOp a s).state
    unfold toggleOp
    by_cases hi : s.isInit = true
    · by_cases hs : s.isInState = true
      · simp only [hi, hs, if_true]
        exact disableStateOp_inv a s h
      · simp only [hi, hs, if_true, Bool.false_eq_true, if_false]
        exact enableStateOp_inv a s h
    · simp only [hi, if_false]
      exact h
  | opSetText t => exact h
  | opSetClass c => exact h

/-- Witness for C3: the invariants hold at `exBtn` and are preserved by a
concrete `init` call there. -/
theorem ops_preserve_inv_wit :
    Inv exBtn ∧ Inv (applyOp (Op.opInit (some "L") none) exBtn) :=
  ⟨by unfold Inv; decide,
   ops_preserve_inv (Op.opInit (some "L") none) exBtn (by unfold Inv; decide)⟩

/-- C5 amended: from an initialized, inactive state with no vetoing observer,
`enableState` followed by `disableState` returns the active flag to its
original (false) value, removes the accessible label when one is configured
and removes every configured state-class token; a second consecutive
`disableState` leaves the state (attributes, classes, wrapper, flags)
completely unchanged, but it is not silent: it fires the
`htz-stateful-btn:disable-before` and `htz-stateful-btn:disable-after`
events again. -/
theorem enable_disable_roundtrip (s s1 s2 : BtnState) (we : Elem)
    (hInit : s.isInit = true) (hw : s.wrapper = some we) (hIn : s.isInState = false)
    (h1 : s1 = (enableStateOp (fun _ => true) s).state)
    (h2 : s2 = (disableStateOp (fun _ => true) s1).state) :
    s2.isInState = false ∧
    (truthy s.a11yText = true → getAttr s2.btn.attrs "aria-label" = none) ∧
    (truthy s.inStateClassName = true →
      ∀ tok ∈ splitSpace (s.inStateClassName.getD ""), tok ∉ s2.btn.classes) ∧
    disableStateOp (fun _ => true) s2 =
      { state := s2,
        events := [⟨"htz-stateful-btn:disable-before", false⟩,
                   ⟨"htz-stateful-btn:disable-after", false⟩] } := by
  subst h1 h2
  refine ⟨?_, ?_, ?_, ?_⟩
  · simp [enableStateOp, disableStateOp, hInit, hw, hIn]
  · intro ha
    by_cases hc : truthy s.inStateClassName = true <;>
      simp [enableStateOp, disableStateOp, hInit, hw, hIn, ha, hc, getAttr_removeAttr_self]
  · intro hc tok htok
    by_cases ha : truthy s.a11yText = true <;>
      simp [enableStateOp, disableStateOp, hInit, hw, hIn, ha, hc, mem_classRemove, htok]
  · by_cases ha : truthy s.a11yText = true <;>
      by_cases hc : truthy s.inStateClassName = true <;>
      simp [enableStateOp, disableStateOp, hInit, hw, hIn, ha, hc,
        getAttr_removeAttr_self, removeAttr_removeAttr, classRemove_classRemove]

/-- Witness for the amended C5 at the concrete run `exInit` → `exEnable` →
`exDisable1`. -/
theorem enable_disable_roundtrip_wit :
    exDisable1.state.isInState = false ∧
    (truthy exInit.a11yText = true →
      getAttr exDisable1.state.btn.attrs "aria-label" = none) ∧
    (truthy exInit.inStateClassName = true →
      ∀ tok ∈ splitSpace (exInit.inStateClassName.getD ""),
        tok ∉ exDisable1.state.btn.classes) ∧
    disableStateOp (fun _ => true) exDisable1.state =
      { state := exDisable1.state,
        events := [⟨"htz-stateful-btn:disable-before", false⟩,
                   ⟨"htz-stateful-btn:disable-after", false⟩] } :=
  enable_disable_roundtrip exInit exEnable.state exDisable1.state { children := [7] }
    (by decide) (by decide) (by decide) rfl rfl

/-- An instance as stored in the module-level registry: `instId` models JS
object identity (allocation order of the `instance` object literal), `btnId`
the identity of the managed `btn` element. -/
structure Instance where
  instId : Nat
  btnId : Nat
  deriving DecidableEq

/-- The module-level state: the `allInstances` array and the allocation
counter giving each constructed instance object its identity. -/
structure RegState where
  reg : List Instance := []
  nextInst : Nat := 0
  deriving DecidableEq

/-- One call of the `statefulBtn` factory on element `b`: a fresh instance
object is created (so reference equality with any existing entry fails) and
`if (allInstances.indexOf(instance) < 0) allInstances.push(instance)` appends
it.  Lifecycle operations never touch the registry — `destroy` does not
remove the entry. -/
def construct (b : Nat) (st : RegState) : RegState :=
  let inst : Instance := ⟨st.nextInst, b⟩
  { reg := if inst ∈ st.reg then st.reg else st.reg ++ [inst],
    nextInst := st.nextInst + 1 }

/-- The registry reached from the fresh module state by a sequence of factory
calls (identified by the target element of each call). -/
def runConstructs (bs : List Nat) : RegState :=
  bs.foldl (fun st b => construct b st) {}

/-- C9 counterexample: constructing twice on the same element `5` leaves two
distinct registered instances whose target is that same element — the claimed
at-most-one-instance-per-element registry invariant fails. -/
theorem registry_double_register :
    (runConstructs [5, 5]).reg = [⟨0, 5⟩, ⟨1, 5⟩] ∧
    (⟨0, 5⟩ : Instance) ≠ ⟨1, 5⟩ ∧
    (runConstructs [5, 5]).reg.map Instance.btnId = [5, 5] := by
  decide

/-- Registry invariant: entries are pairwise distinct and their allocation
ids are below the counter. -/
def RegInv (st : RegState) : Prop :=
  st.reg.Pairwise (· ≠ ·) ∧ ∀ i ∈ st.reg, i.instId < st.nextInst

theorem construct_regInv (b : Nat) (st : RegState) (h : RegInv st) :
    RegInv (construct b st) := by
  obtain ⟨hp, hb⟩ := h
  have hnotmem : (⟨st.nextInst, b⟩ : Instance) ∉ st.reg :=
    fun hm => absurd (hb _ hm) (by simp)
  unfold construct
  simp only [if_neg hnotmem]
  constructor
  · rw [List.pairwise_append]
    refine ⟨hp, by simp, ?_⟩
    intro a ha b' hb'
    simp only [List.mem_singleton] at hb'
    subst hb'
    intro heq
    exact absurd (hb a ha) (by rw [heq]; simp)
  · intro i hi
    rcases List.mem_append.mp hi with hm | hm
    · exact Nat.lt_succ_of_lt (hb i hm)
    · simp only [List.mem_singleton] at hm
      subst hm
      exact Nat.lt_succ_self _

theorem construct_length (b : Nat) (st : RegState) (h : RegInv st) :
    (construct b st).reg.length = st.reg.length + 1 := by
  have hnotmem : (⟨st.nextInst, b⟩ : Instance) ∉ st.reg :=
    fun hm => absurd (h.2 _ hm) (by simp)
  simp [construct, hnotmem]

theorem runConstructs_inv (bs : List Nat) :
    ∀ st, RegInv st →
      RegInv (bs.foldl (fun st b => construct b st) st) ∧
      (bs.foldl (fun st b => construct b st) st).reg.length = st.reg.length + bs.length := by
  induction bs with
  | nil => intro st h; exact ⟨h, by simp⟩
  | cons b rest ih =>
    intro st h
    obtain ⟨h1, h2⟩ := ih (construct b st) (construct_regInv b st h)
    refine ⟨h1, ?_⟩
    simp only [List.foldl_cons, List.length_cons]
    rw [h2, construct_length b st h]
    omega

/-- C9 amended: the registry never contains the same instance object twice
(its entries are pairwise distinct) and grows by exactly one entry per
factory call — but, per the counterexample, two distinct registered
instances may share the same target element. -/
theorem registry_no_duplicate_instance (bs : List Nat) :
    (runConstructs bs).reg.Pairwise (· ≠ ·) ∧
    (runConstructs bs).reg.length = bs.length := by
  have h := runConstructs_inv bs {} ⟨List.Pairwise.nil, by simp⟩
  exact ⟨h.1.1, by simpa using h.2⟩

/-- The argument accepted by `getInstance`: a button element or the `id` of
one. -/
inductive BtnRef where
  | elemRef (e : Nat)
  | strRef (str : String)

/-- `getInstance(btn)` from the module: duck-types its argument — a string is
resolved against the document by `document.getElementById` (modelled by
`doc`, with `none` for the `null` of an unknown id), an element is used
as-is — and returns the first registered instance whose `btn` is that
element (`allInstances.filter(item => item.btn === elem)[0]`; `none` models
the `undefined` result when no instance matches). -/
def getInstance (doc : String → Option Nat) (reg : List Instance)
    (btn : BtnRef) : Option Instance :=
  let elem : Option Nat :=
    match btn with
    | .strRef str => doc str
    | .elemRef e => some e
  (reg.filter (fun item => some item.btnId = elem)).head?

/-- C10: `getInstance` accepts an element or a string id resolved through the
document, returns the (first) registered instance whose target matches, and
returns an absent result — rather than failing — for an element with no
registered instance or an id that does not resolve. -/
theorem getInstance_spec (doc : String → Option Nat) (reg reg2 : List Instance)
    (e : Nat) (goodId badId : String) (i : Instance)
    (hdoc : doc goodId = some e)
    (hbad : doc badId = none)
    (hfirst : (reg.filter (fun item => some item.btnId = some e)).head? = some i)
    (hnone : ∀ j ∈ reg2, j.btnId ≠ e) :
    getInstance doc reg (.elemRef e) = some i ∧
    getInstance doc reg (.strRef goodId) = some i ∧
    getInstance doc reg2 (.elemRef e) = none ∧
    getInstance doc reg2 (.strRef goodId) = none ∧
    getInstance doc reg (.strRef badId) = none := by
  have hfind : List.find? (fun item => decide (item.btnId = e)) reg = some i := by
    simpa using hfirst
  have h5 : reg.filter (fun item => some item.btnId = (none : Option Nat)) = [] := by
    rw [List.filter_eq_nil_iff]
    intro j _
    simp
  refine ⟨?_, ?_, ?_, ?_, ?_⟩
  · simpa [getInstance] using hfind
  · simpa [getInstance, hdoc] using hfind
  · simpa [getInstance] using hnone
  · simpa [getInstance, hdoc] using hnone
  · simp [getInstance, hbad, h5]

/-- Witness for C10 at a concrete one-entry registry and document. -/
theorem getInstance_spec_wit :
    getInstance (fun str => if str = "good" then some 3 else none) [⟨0, 3⟩]
      (.elemRef 3) = some ⟨0, 3⟩ ∧
    getInstance (fun str => if str = "good" then some 3 else none) [⟨0, 3⟩]
      (.strRef "good") = some ⟨0, 3⟩ ∧
    getInstance (fun str => if str = "good" then some 3 else none) [⟨0, 4⟩]
      (.elemRef 3) = none ∧
    getInstance (fun str => if str = "good" then some 3 else none) [⟨0, 4⟩]
      (.strRef "good") = none ∧
    getInstance (fun str => if str = "good" then some 3 else none) [⟨0, 3⟩]
      (.strRef "bad") = none :=
  getInstance_spec (fun str => if str = "good" then some 3 else none)
    [⟨0, 3⟩] [⟨0, 4⟩] 3 "good" "bad" ⟨0, 3⟩ (by decide) (by decide) (by decide) (by decide)

end StatefulBtn
